import Mathlib

/-!
Shallow embedding of the STP-Team/parser fetch-aggregate-replace pipeline
(src/app/tasks/base.py, src/app/tasks/kpi.py, src/app/tasks/premium.py),
together with proofs about the properties stated in the specification.

Python values carried by the validated API payloads are modelled by the
inductive type PyVal (integers and floating-point numbers, the latter
represented exactly as rationals); fallible code is modelled with Except,
the database session as an explicit record of committed and pending rows,
and the asyncio semaphore of the bounded fetcher as a small-step transition
system.
-/

deriving instance DecidableEq for Except

/-- A numeric Python value as it appears in a validated API payload:
either an int or a float (floats are represented exactly as rationals). -/
inductive PyVal where
  | pint : Int → PyVal
  | pfloat : Rat → PyVal
deriving DecidableEq, Repr

/-- The Python float(x) conversion on numeric values. -/
def pyFloat : PyVal → PyVal
  | .pint n => .pfloat (n : Rat)
  | .pfloat q => .pfloat q

/-- The Python int(x) conversion on numeric values (truncation toward zero). -/
def pyInt : PyVal → Int
  | .pint n => n
  | .pfloat q => q.num.tdiv (q.den : Int)

/-- Whether a value is a floating-point value. -/
def PyVal.isFloat : PyVal → Bool
  | .pint _ => false
  | .pfloat _ => true

/-- The five KPI report-type labels of src/app/tasks/kpi.py
(the list iterated over in _generic_fill_period). -/
inductive ReportType where
  | aht | flr | csi | pok | delay
deriving DecidableEq, Repr

/-- One row of a KPI report payload. A row always carries the subject
full name; each metric attribute is optional, mirroring
getattr(row, report_type, None) on the report-type-specific record
classes of src/app/models/kpi.py. -/
structure KpiRow where
  fullname : String
  total_contacts : Option PyVal := none
  aht : Option PyVal := none
  flr : Option PyVal := none
  csi : Option PyVal := none
  pok : Option PyVal := none
  delay : Option PyVal := none
deriving DecidableEq, Repr

/-- getattr(row, report_type, None) for the five metric attributes. -/
def KpiRow.metric (row : KpiRow) : ReportType → Option PyVal
  | .aht => row.aht
  | .flr => row.flr
  | .csi => row.csi
  | .pok => row.pok
  | .delay => row.delay

/-- The aggregated record template built by _create_empty_kpi_record
and filled in by _aggregate_kpi_results. -/
structure KpiRecord where
  fullname : String
  contacts_count : Option Int
  aht : Option PyVal
  flr : Option PyVal
  csi : Option PyVal
  pok : Option PyVal
  delay : Option PyVal
deriving DecidableEq, Repr

/-- Embeds _create_empty_kpi_record: every slot is None. -/
def emptyKpiRecord (fullname : String) : KpiRecord :=
  ⟨fullname, none, none, none, none, none, none⟩

/-- Reads the metric slot named by a report type from an aggregated record. -/
def KpiRecord.slot (rec : KpiRecord) : ReportType → Option PyVal
  | .aht => rec.aht
  | .flr => rec.flr
  | .csi => rec.csi
  | .pok => rec.pok
  | .delay => rec.delay

/-- Writes the metric slot named by a report type
(the assignment kpi_dict[row.fullname][report_type] = value). -/
def KpiRecord.setSlot (rec : KpiRecord) : ReportType → Option PyVal → KpiRecord
  | .aht, v => { rec with aht := v }
  | .flr, v => { rec with flr := v }
  | .csi, v => { rec with csi := v }
  | .pok, v => { rec with pok := v }
  | .delay, v => { rec with delay := v }

/-- The membership test report_type in ("flr", "csi", "pok", "delay")
guarding the float(value) conversion; note that aht is excluded. -/
def isFloatConverted : ReportType → Bool
  | .aht => false
  | _ => true

/-- The metric value stored for one row by _aggregate_kpi_results:
getattr(row, report_type, None), converted with float() when the report
type is one of flr, csi, pok, delay. -/
def convMetric (rt : ReportType) (row : KpiRow) : Option PyVal :=
  match row.metric rt with
  | some v => some (if isFloatConverted rt then pyFloat v else v)
  | none => none

/-- The aggregation dictionary keyed by subject full name (kpi_dict).
A defaultdict is modelled as a partial map; absent keys take the
empty-record default at first access. -/
def KpiDict : Type := String → Option KpiRecord

/-- The empty aggregation dictionary. -/
def emptyKpiDict : KpiDict := fun _ => none

/-- The update applied to the record of row.fullname by one iteration of
the inner loop of _aggregate_kpi_results: set the full name if still
empty (first writer wins), overwrite contacts_count whenever the row
carries total_contacts, then assign the metric slot of the report type
unconditionally. -/
def updKpiRecord (rt : ReportType) (row : KpiRow) (o : Option KpiRecord) : KpiRecord :=
  let rec0 := o.getD (emptyKpiRecord "")
  let rec1 := if rec0.fullname = "" then { rec0 with fullname := row.fullname } else rec0
  let rec2 := match row.total_contacts with
    | some tc => { rec1 with contacts_count := some (pyInt tc) }
    | none => rec1
  rec2.setSlot rt (convMetric rt row)

/-- Processing of one payload row: update the entry of row.fullname. -/
def processKpiRow (rt : ReportType) (row : KpiRow) (d : KpiDict) : KpiDict :=
  fun s => if s = row.fullname then some (updKpiRecord rt row (d row.fullname)) else d s

/-- Processing of all rows of one result, in payload order. -/
def processKpiRows (rt : ReportType) (rows : List KpiRow) (d : KpiDict) : KpiDict :=
  rows.foldl (fun d row => processKpiRow rt row d) d

/-- The validated KPI response payload (the data field of res). -/
structure KpiResponse where
  data : List KpiRow
deriving DecidableEq, Repr

/-- Processing of one (report_type, result) pair by _aggregate_kpi_results:
a missing response or an empty data list is skipped (if not res or
not res.data: continue). -/
def processKpiResult (rt : ReportType) (res : Option KpiResponse) (d : KpiDict) : KpiDict :=
  match res with
  | none => d
  | some r => if r.data.isEmpty then d else processKpiRows rt r.data d

/-- Embeds _aggregate_kpi_results: fold the zipped task/result pairs over
an initially empty dictionary. Only the report-type component of each
task tuple is kept (the coroutine component is never read there). -/
def aggregateKpiResults (tasks : List ReportType) (results : List (Option KpiResponse)) : KpiDict :=
  (tasks.zip results).foldl (fun d p => processKpiResult p.1 p.2 d) emptyKpiDict

/-- The metric slot of one subject in the aggregation dictionary. -/
def dictSlot (d : KpiDict) (s : String) (rt : ReportType) : Option PyVal :=
  (d s).bind (fun rec => rec.slot rt)

/-- The contacts_count field of one subject in the aggregation dictionary. -/
def dictContacts (d : KpiDict) (s : String) : Option Int :=
  (d s).bind (fun rec => rec.contacts_count)

/-- Forgets the cross-cutting contacts_count field of an aggregated record. -/
def KpiRecord.eraseContacts (rec : KpiRecord) : KpiRecord :=
  { rec with contacts_count := none }

/-- Equality of optional aggregated records up to the contacts_count field. -/
def optEquiv (o1 o2 : Option KpiRecord) : Prop :=
  o1.map KpiRecord.eraseContacts = o2.map KpiRecord.eraseContacts

/-- Equality of aggregation dictionaries up to the contacts_count field. -/
def dictEquiv (d1 d2 : KpiDict) : Prop :=
  ∀ s, optEquiv (d1 s) (d2 s)

/-- The full name held before a row update: the full name of the present
record, or the empty default of a fresh record. -/
def oldFullname (o : Option KpiRecord) : String :=
  (o.map KpiRecord.fullname).getD ""

/-- The full name held after a row update: the first writer wins. -/
def newFullname (row : KpiRow) (o : Option KpiRecord) : String :=
  if oldFullname o = "" then row.fullname else oldFullname o

/-!
Database session model. A scoped SQLAlchemy-style session over one
destination table is a pair of row lists: the committed table contents and
the pending working copy of the open transaction. Statements mutate the
pending copy; commit publishes it; rollback discards it.
-/

/-- One scoped database session over a single destination table. -/
structure DBSession (α : Type) where
  committed : List α
  pending : List α
deriving DecidableEq, Repr

/-- session.add_all(data): stage new rows in the open transaction. -/
def DBSession.addAll (st : DBSession α) (rows : List α) : DBSession α :=
  { st with pending := st.pending ++ rows }

/-- A DELETE or TRUNCATE of every row, staged in the open transaction. -/
def DBSession.clearAll (st : DBSession α) : DBSession α :=
  { st with pending := [] }

/-- session.commit(): publish the pending rows. -/
def DBSession.commit (st : DBSession α) : DBSession α :=
  { st with committed := st.pending }

/-- session.rollback(): discard the pending rows. -/
def DBSession.rollback (st : DBSession α) : DBSession α :=
  { st with pending := st.committed }

/-- The database operations a writer can perform, recorded as a trace. -/
inductive DBOp where
  | opClear : String → DBOp
  | opInsert : Nat → DBOp
  | opCommit : DBOp
deriving DecidableEq, Repr

/-- The step of bulk_insert_with_cleanup at which an injected failure is
raised: during the delete callback, during the insert, or during commit. -/
inductive FailPoint where
  | atDelete | atInsert | atCommit
deriving DecidableEq, Repr

/-- Embeds BatchDBOperator.bulk_insert_with_cleanup
(src/app/tasks/base.py lines 179-217). An empty data list returns zero
immediately with no database operation. Otherwise the optional delete
callback, the insert and the commit run inside try/except: any injected
failure is caught, the session is rolled back, and zero is returned; the
fail-point argument names the first step that raises, if any (a delete
failure can only be raised when a delete callback was provided).
Returns the session, the reported row count and the trace of completed
database operations. -/
def bulkInsertWithCleanup (st : DBSession α) (data : List α) (hasDelete : Bool)
    (failAt : Option FailPoint) (table : String) : DBSession α × Nat × List DBOp :=
  if data.isEmpty then (st, 0, [])
  else if hasDelete && failAt == some .atDelete then
    (st.rollback, 0, [])
  else
    let st1 := if hasDelete then st.clearAll else st
    let tr1 := if hasDelete then [DBOp.opClear table] else []
    if failAt == some .atInsert then
      (st1.rollback, 0, tr1)
    else
      let st2 := st1.addAll data
      let tr2 := tr1 ++ [DBOp.opInsert data.length]
      if failAt == some .atCommit then
        (st2.rollback, 0, tr2)
      else
        (st2.commit, data.length, tr2 ++ [DBOp.opCommit])

/-- Whether a failure is actually raised inside bulk_insert_with_cleanup
for a given fail point: no step runs on an empty data list, and the
delete step runs only when a delete callback was provided. -/
def raisesDuring (dataNonempty hasDelete : Bool) (failAt : Option FailPoint) : Bool :=
  dataNonempty && match failAt with
    | none => false
    | some .atDelete => hasDelete
    | some _ => true

/-- Embeds _bulk_insert_kpi (src/app/tasks/kpi.py lines 73-92): TRUNCATE
the table, build the records whose full name is nonempty, add_all and
commit, with no exception handler of its own. The surrounding
get_stats_session context manager is modelled from the spec: the
downstream storage collaborator is a scoped session with commit/rollback,
so an exception rolls back the open transaction and propagates to the
caller. The input list stands for kpi_dict.values() in dictionary order. -/
def bulkInsertKpi (st : DBSession KpiRecord) (values : List KpiRecord)
    (failAt : Option FailPoint) : Except FailPoint (DBSession KpiRecord) :=
  if failAt == some .atDelete then .error .atDelete
  else
    let st1 := st.clearAll
    let records := values.filter (fun rec => rec.fullname ≠ "")
    let st2 := st1.addAll records
    if failAt == some .atInsert then .error .atInsert
    else if failAt == some .atCommit then .error .atCommit
    else .ok st2.commit

/-- Embeds _bulk_insert_premium (src/app/tasks/premium.py lines 44-58) on
its success path: TRUNCATE TABLE SpecPremium, add_all of the whole list,
commit. There is no empty-input guard in this function. Returns the
session and the trace of database operations. -/
def bulkInsertPremium (st : DBSession α) (rows : List α) : DBSession α × List DBOp :=
  let st1 := st.clearAll
  let st2 := st1.addAll rows
  (st2.commit, [DBOp.opClear "SpecPremium", DBOp.opInsert rows.length, DBOp.opCommit])

/-!
Premium flows (src/app/tasks/premium.py). The payload field values are
kept generic in a type parameter: the converters only copy them.
-/

/-- One row of the specialist premium payload (SpecialistPremiumData in
src/app/models/premium.py), restricted to the attributes read by the
premium task flows. The period attribute is the raw dd.mm.yyyy string. -/
structure ApiPremiumRow (α : Type) where
  user_fullname : String
  period : String
  total_contacts : α
  csi : α
  csi_normative : α
  csi_normative_rate : α
  csi_premium : α
  csi_response : α
  csi_response_normative : α
  csi_response_normative_rate : α
  flr : α
  flr_normative : α
  flr_normative_rate : α
  flr_premium : α
  gok : α
  gok_normative : α
  gok_normative_rate : α
  gok_premium : α
  target : α
  target_type : α
  target_normative_first : α
  target_normative_second : α
  target_normative_rate_first : α
  target_normative_rate_second : α
  target_premium : α
  pers_target_manual : α
  discipline_premium : α
  tests_premium : α
  thanks_premium : α
  tutors_premium : α
  head_adjust_premium : α
  total_premium : α
deriving DecidableEq, Repr

/-- The wrapper payload returned by api.get_specialist_premium
(its items attribute). -/
structure PremiumResult (α : Type) where
  items : List (ApiPremiumRow α)
deriving DecidableEq, Repr

/-- The SpecPremium storage row as constructed by the premium task flows. -/
structure SpecPremiumRow (α : Type) where
  fullname : String
  contacts_count : α
  csi : α
  csi_normative : α
  csi_normative_rate : α
  csi_premium : α
  csi_response : α
  csi_response_normative : α
  csi_response_normative_rate : α
  flr : α
  flr_normative : α
  flr_normative_rate : α
  flr_premium : α
  gok : α
  gok_normative : α
  gok_normative_rate : α
  gok_premium : α
  target : α
  target_type : α
  target_normative_first : α
  target_normative_second : α
  target_normative_rate_first : α
  target_normative_rate_second : α
  target_premium : α
  pers_target_manual : α
  discipline_premium : α
  tests_premium : α
  thanks_premium : α
  tutors_premium : α
  head_adjust_premium : α
  total_premium : α
  extraction_period : Nat × Nat × Nat
deriving DecidableEq, Repr

/-- Splits a character list on the dot character. -/
def splitDots : List Char → List (List Char)
  | [] => [[]]
  | c :: cs =>
    let r := splitDots cs
    if c = '.' then [] :: r
    else match r with
      | [] => [[c]]
      | g :: gs => (c :: g) :: gs

/-- Parses a nonempty list of decimal digits as a natural number. -/
def digitsToNat? (l : List Char) : Option Nat :=
  if l.isEmpty then none
  else l.foldl (fun acc c =>
    match acc with
    | none => none
    | some n => if c.isDigit then some (n * 10 + (c.toNat - 48)) else none) (some 0)

/-- Models datetime.strptime for the dd.mm.yyyy format, as day, month and
year numbers; a string that does not split into three decimal parts
raises, modelled as an error carrying the offending string. -/
def strptimeDMY (s : String) : Except String (Nat × Nat × Nat) :=
  match splitDots s.data with
  | [d, m, y] =>
    match digitsToNat? d, digitsToNat? m, digitsToNat? y with
    | some dd, some mm, some yy => .ok (dd, mm, yy)
    | _, _, _ => .error s
  | _ => .error s

/-- The SpecPremium row constructed from one payload row by the
single-period flow fill_specialists_premium (src/app/tasks/premium.py
lines 110-147). Note line 136: the target_normative_rate_second column
is assigned row.target_normative_second there. -/
def specPremiumOfRowSingle (row : ApiPremiumRow α) : Except String (SpecPremiumRow α) := do
  let dt ← strptimeDMY row.period
  .ok {
    fullname := row.user_fullname
    contacts_count := row.total_contacts
    csi := row.csi
    csi_normative := row.csi_normative
    csi_normative_rate := row.csi_normative_rate
    csi_premium := row.csi_premium
    csi_response := row.csi_response
    csi_response_normative := row.csi_response_normative
    csi_response_normative_rate := row.csi_response_normative_rate
    flr := row.flr
    flr_normative := row.flr_normative
    flr_normative_rate := row.flr_normative_rate
    flr_premium := row.flr_premium
    gok := row.gok
    gok_normative := row.gok_normative
    gok_normative_rate := row.gok_normative_rate
    gok_premium := row.gok_premium
    target := row.target
    target_type := row.target_type
    target_normative_first := row.target_normative_first
    target_normative_second := row.target_normative_second
    target_normative_rate_first := row.target_normative_rate_first
    target_normative_rate_second := row.target_normative_second
    target_premium := row.target_premium
    pers_target_manual := row.pers_target_manual
    discipline_premium := row.discipline_premium
    tests_premium := row.tests_premium
    thanks_premium := row.thanks_premium
    tutors_premium := row.tutors_premium
    head_adjust_premium := row.head_adjust_premium
    total_premium := row.total_premium
    extraction_period := dt
  }

/-- The SpecPremium row constructed from one payload row by the
multi-period backfill flow fill_specialists_premium_multiple_periods
(src/app/tasks/premium.py lines 284-321), whose target_normative_rate_second
column is assigned row.target_normative_rate_second. -/
def specPremiumOfRowMulti (row : ApiPremiumRow α) : Except String (SpecPremiumRow α) := do
  let dt ← strptimeDMY row.period
  .ok {
    fullname := row.user_fullname
    contacts_count := row.total_contacts
    csi := row.csi
    csi_normative := row.csi_normative
    csi_normative_rate := row.csi_normative_rate
    csi_premium := row.csi_premium
    csi_response := row.csi_response
    csi_response_normative := row.csi_response_normative
    csi_response_normative_rate := row.csi_response_normative_rate
    flr := row.flr
    flr_normative := row.flr_normative
    flr_normative_rate := row.flr_normative_rate
    flr_premium := row.flr_premium
    gok := row.gok
    gok_normative := row.gok_normative
    gok_normative_rate := row.gok_normative_rate
    gok_premium := row.gok_premium
    target := row.target
    target_type := row.target_type
    target_normative_first := row.target_normative_first
    target_normative_second := row.target_normative_second
    target_normative_rate_first := row.target_normative_rate_first
    target_normative_rate_second := row.target_normative_rate_second
    target_premium := row.target_premium
    pers_target_manual := row.pers_target_manual
    discipline_premium := row.discipline_premium
    tests_premium := row.tests_premium
    thanks_premium := row.thanks_premium
    tutors_premium := row.tutors_premium
    head_adjust_premium := row.head_adjust_premium
    total_premium := row.total_premium
    extraction_period := dt
  }

/-- The rows contributed by one (division, result) pair of one period of
fill_specialists_premium_multiple_periods: a failed fetch or a result
without items is skipped; otherwise every payload row is converted in
order (a conversion failure propagates, as strptime does). -/
def premiumRowsOfResult (res : Option (PremiumResult α)) :
    Except String (List (SpecPremiumRow α)) :=
  match res with
  | none => .ok []
  | some r => r.items.mapM specPremiumOfRowMulti

/-- The rows accumulated for one period across every division, in
division order. The api argument yields the outcome of one
get_specialist_premium call; a raised failure is mapped to None by the
gather error handling, exactly as in the source. -/
def premiumRowsOfPeriod (unites : List String)
    (api : String → String → Except String (PremiumResult α)) (period : String) :
    Except String (List (SpecPremiumRow α)) := do
  let results := unites.map (fun division => (api period division).toOption)
  let rowLists ← results.mapM premiumRowsOfResult
  .ok rowLists.flatten

/-- The accumulation loop of fill_specialists_premium_multiple_periods:
all periods are processed sequentially and their converted rows are
appended to one list before any database operation. -/
def collectPremiumRows (unites : List String)
    (api : String → String → Except String (PremiumResult α)) (periods : List String) :
    Except String (List (SpecPremiumRow α)) := do
  let perPeriod ← periods.mapM (premiumRowsOfPeriod unites api)
  .ok perPeriod.flatten

/-- Embeds fill_specialists_premium_multiple_periods
(src/app/tasks/premium.py lines 242-334): accumulate the converted rows
of every period, then either return with no database operation when the
accumulated list is empty, or perform the single terminal
_bulk_insert_premium replace. Returns the session and the trace of
database operations. -/
def fillSpecialistsPremiumMultiplePeriods (unites : List String)
    (api : String → String → Except String (PremiumResult α)) (periods : List String)
    (st : DBSession (SpecPremiumRow α)) :
    Except String (DBSession (SpecPremiumRow α) × List DBOp) := do
  let rows ← collectPremiumRows unites api periods
  if rows.isEmpty then .ok (st, [])
  else .ok (bulkInsertPremium st rows)

/-!
Bounded fetcher (src/app/tasks/base.py, ConcurrentAPIFetcher).
-/

/-- The positional result list produced by asyncio.gather over the
limited-task coroutines with return_exceptions=True: one outcome per
task, in task order. The executor outcome of a task is either a value
or a raised exception. -/
def gatherResults (tasks : List τ) (exec : τ → Except ε ρ) : List (Except ε ρ) :=
  tasks.map exec

/-- The post-processing loop of fetch_parallel: pair each task with its
result, mapping a raised exception to None after logging it. -/
def processGathered (tasks : List τ) (results : List (Except ε ρ)) : List (τ × Option ρ) :=
  (tasks.zip results).map (fun p =>
    match p.2 with
    | .ok v => (p.1, some v)
    | .error _ => (p.1, none))

/-- Embeds ConcurrentAPIFetcher.fetch_parallel (src/app/tasks/base.py
lines 96-130): gather all outcomes positionally, then replace each raised
exception by None in the paired output. -/
def fetchParallel (tasks : List τ) (exec : τ → Except ε ρ) : List (τ × Option ρ) :=
  processGathered tasks (gatherResults tasks exec)

/-!
The admission gate of the bounded fetcher, as a small-step transition
system. Each limited task waits for the semaphore, holds a slot while its
executor runs, and releases the slot when it finishes (with a value or an
exception). The semaphore counter starts at the configured limit; acquire
requires a positive counter and decrements it; release increments it.
-/

/-- One instant of the bounded fetcher run: the tasks not yet admitted,
the tasks currently holding a slot (executing), the finished tasks, and
the semaphore counter. -/
structure FetcherState where
  waiting : List Nat
  holding : List Nat
  finished : List Nat
  counter : Nat
deriving DecidableEq, Repr

/-- The initial instant: no task admitted, counter at the semaphore
limit (default 10 in ConcurrentAPIFetcher). -/
def initFetcherState (limit : Nat) (tasks : List Nat) : FetcherState :=
  ⟨tasks, [], [], limit⟩

/-- One scheduler step of the bounded fetcher: a waiting task acquires
the semaphore when the counter is positive, or a holding task finishes
and releases its slot. -/
inductive FetcherStep : FetcherState → FetcherState → Prop where
  | acquire (s : FetcherState) (t : Nat) (hw : t ∈ s.waiting) (hc : 0 < s.counter) :
      FetcherStep s ⟨s.waiting.erase t, t :: s.holding, s.finished, s.counter - 1⟩
  | release (s : FetcherState) (t : Nat) (hh : t ∈ s.holding) :
      FetcherStep s ⟨s.waiting, s.holding.erase t, t :: s.finished, s.counter + 1⟩

/-- The instants reachable during one fetch_parallel call with the given
semaphore limit and task list. -/
def FetcherReachable (limit : Nat) (tasks : List Nat) (s : FetcherState) : Prop :=
  Relation.ReflTransGen FetcherStep (initFetcherState limit tasks) s

/-!
Period generator (src/app/tasks/premium.py, generate_last_6_months_periods).
-/

/-- The month-correcting while loop of generate_last_6_months_periods:
while the month is nonpositive, add twelve months and go back one year. -/
def fixMonth (year month : Int) : Int × Int :=
  if month ≤ 0 then fixMonth (year - 1) (month + 12) else (year, month)
termination_by (1 - month).toNat
decreasing_by simp_wf; omega

/-- Zero-padding of the month to two digits, as the 02d format does for
month values between 0 and 99. -/
def pad2 (m : Int) : String :=
  if m < 10 then "0" ++ toString m else toString m

/-- The period string of one generated month, 01.mm.yyyy. -/
def formatPeriod (year month : Int) : String :=
  "01." ++ pad2 month ++ "." ++ toString year

/-- Embeds generate_last_6_months_periods (src/app/tasks/premium.py lines
16-41) with the current year and month passed explicitly: for each of the
six offsets, subtract the offset from the current month, correct with the
while loop, and format as 01.mm.yyyy. -/
def generate_last_6_months_periods (year month : Int) : List String :=
  (List.range 6).map (fun (i : Nat) =>
    let ym := fixMonth year (month - (i : Int))
    formatPeriod ym.1 ym.2)

/-- The calendar point i months before the given year and month, written
without the loop: within the twelve-month window the year decreases by
one exactly when the offset reaches the current month. -/
def monthShift (year month : Int) (i : Nat) : Int × Int :=
  if (i : Int) < month then (year, month - (i : Int)) else (year - 1, month - (i : Int) + 12)

/-!
Concrete inputs used by witnesses and counterexamples.
-/

/-- A premium payload row with every metric field equal to the given
value and the given raw period string. -/
def mkApiPremiumRow (a : α) (p : String) : ApiPremiumRow α :=
  ⟨"A", p, a, a, a, a, a, a, a, a, a, a, a, a, a, a, a, a, a, a, a, a, a, a, a, a, a, a, a, a, a, a⟩

/-- A premium payload row on which the two specialist converters differ:
its target_normative_second and target_normative_rate_second values are
distinct. -/
def premiumRowRateSplit : ApiPremiumRow Int :=
  { mkApiPremiumRow (0 : Int) "01.01.2025" with
      target_normative_second := 1, target_normative_rate_second := 2 }

/-- The backfill scenario of the spec: period one yields five payload
rows and period two yields three. -/
def backfillApi : String → String → Except String (PremiumResult Unit) :=
  fun period _ =>
    if period = "01.01.2025" then .ok ⟨List.replicate 5 (mkApiPremiumRow () "01.01.2025")⟩
    else .ok ⟨List.replicate 3 (mkApiPremiumRow () "01.02.2025")⟩

/-- The rows the backfill scenario accumulates across its two periods. -/
def backfillRows : List (SpecPremiumRow Unit) :=
  (collectPremiumRows ["U"] backfillApi ["01.01.2025", "01.02.2025"]).toOption.getD []

/-- A KPI payload row carrying an flr value of one. -/
def kpiRowFlrOne : KpiRow := { fullname := "A", flr := some (.pint 1) }

/-- A KPI payload row carrying an flr value of two. -/
def kpiRowFlrTwo : KpiRow := { fullname := "A", flr := some (.pint 2) }

/-- A KPI payload row of an flr report carrying ten contacts. -/
def kpiRowContactsTen : KpiRow :=
  { fullname := "A", total_contacts := some (.pint 10), flr := some (.pint 1) }

/-- A KPI payload row of a csi report carrying twenty contacts. -/
def kpiRowContactsTwenty : KpiRow :=
  { fullname := "A", total_contacts := some (.pint 20), csi := some (.pint 3) }

/-- A KPI payload row of an aht report carrying an integer aht value. -/
def kpiRowAhtFive : KpiRow := { fullname := "A", aht := some (.pint 5) }

theorem slot_setSlot (rec : KpiRecord) (rt rt' : ReportType) (v : Option PyVal) :
    (rec.setSlot rt v).slot rt' = if rt' = rt then v else rec.slot rt' := by
  cases rt <;> cases rt' <;> simp [KpiRecord.setSlot, KpiRecord.slot]

theorem fullname_setSlot (rec : KpiRecord) (rt : ReportType) (v : Option PyVal) :
    (rec.setSlot rt v).fullname = rec.fullname := by
  cases rt <;> rfl

theorem updKpiRecord_slot_self (rt : ReportType) (row : KpiRow) (o : Option KpiRecord) :
    (updKpiRecord rt row o).slot rt = convMetric rt row := by
  unfold updKpiRecord
  rw [slot_setSlot, if_pos rfl]

theorem updKpiRecord_slot_ne (rt rt' : ReportType) (row : KpiRow) (o : Option KpiRecord)
    (h : rt' ≠ rt) :
    (updKpiRecord rt row o).slot rt' = o.bind (fun r => r.slot rt') := by
  unfold updKpiRecord
  rw [slot_setSlot, if_neg h]
  rcases o with _ | r <;> rcases hc : row.total_contacts with _ | tc <;>
    cases rt' <;>
    simp [hc, emptyKpiRecord, KpiRecord.slot] <;>
    split <;> rfl

theorem updKpiRecord_fullname (rt : ReportType) (row : KpiRow) (o : Option KpiRecord) :
    (updKpiRecord rt row o).fullname = newFullname row o := by
  unfold updKpiRecord newFullname oldFullname
  rw [fullname_setSlot]
  rcases o with _ | r <;> rcases hc : row.total_contacts with _ | tc <;>
    simp [hc, emptyKpiRecord] <;> split <;> simp_all

theorem eraseContacts_eq_of (r1 r2 : KpiRecord) (hf : r1.fullname = r2.fullname)
    (hs : ∀ rt, r1.slot rt = r2.slot rt) : r1.eraseContacts = r2.eraseContacts := by
  have ha := hs .aht
  have hl := hs .flr
  have hc := hs .csi
  have hp := hs .pok
  have hd := hs .delay
  cases r1
  cases r2
  simp_all [KpiRecord.eraseContacts, KpiRecord.slot]

theorem optEquiv_fullname (o1 o2 : Option KpiRecord) (h : optEquiv o1 o2) :
    o1.map KpiRecord.fullname = o2.map KpiRecord.fullname := by
  rcases o1 with _ | r1 <;> rcases o2 with _ | r2 <;> simp_all [optEquiv]
  have : r1.eraseContacts.fullname = r2.eraseContacts.fullname := by rw [h]
  simpa [KpiRecord.eraseContacts] using this

theorem optEquiv_slot (o1 o2 : Option KpiRecord) (h : optEquiv o1 o2) (rt : ReportType) :
    o1.bind (fun r => r.slot rt) = o2.bind (fun r => r.slot rt) := by
  rcases o1 with _ | r1 <;> rcases o2 with _ | r2 <;> simp_all [optEquiv]
  have : r1.eraseContacts.slot rt = r2.eraseContacts.slot rt := by rw [h]
  cases rt <;> simpa [KpiRecord.eraseContacts, KpiRecord.slot] using this

theorem oldFullname_congr (o1 o2 : Option KpiRecord) (h : optEquiv o1 o2) :
    oldFullname o1 = oldFullname o2 := by
  unfold oldFullname
  rw [optEquiv_fullname o1 o2 h]

theorem updKpiRecord_congr (rt : ReportType) (row : KpiRow) (o1 o2 : Option KpiRecord)
    (h : optEquiv o1 o2) :
    (updKpiRecord rt row o1).eraseContacts = (updKpiRecord rt row o2).eraseContacts := by
  apply eraseContacts_eq_of
  · rw [updKpiRecord_fullname, updKpiRecord_fullname]
    unfold newFullname
    rw [oldFullname_congr o1 o2 h]
  · intro rt'
    by_cases hrt : rt' = rt
    · subst hrt
      rw [updKpiRecord_slot_self, updKpiRecord_slot_self]
    · rw [updKpiRecord_slot_ne _ _ _ _ hrt, updKpiRecord_slot_ne _ _ _ _ hrt]
      exact optEquiv_slot o1 o2 h rt'

theorem updKpiRecord_comm (rt1 rt2 : ReportType) (row1 row2 : KpiRow) (o : Option KpiRecord)
    (hrt : rt1 ≠ rt2) (hf : row1.fullname = row2.fullname) :
    (updKpiRecord rt2 row2 (some (updKpiRecord rt1 row1 o))).eraseContacts =
      (updKpiRecord rt1 row1 (some (updKpiRecord rt2 row2 o))).eraseContacts := by
  apply eraseContacts_eq_of
  · rw [updKpiRecord_fullname, updKpiRecord_fullname]
    unfold newFullname oldFullname
    simp only [Option.map_some', Option.getD_some]
    rw [updKpiRecord_fullname, updKpiRecord_fullname]
    unfold newFullname
    by_cases h0 : oldFullname o = "" <;>
      simp [h0, hf]
  · intro rt'
    by_cases h1 : rt' = rt2
    · subst h1
      rw [updKpiRecord_slot_self, updKpiRecord_slot_ne _ _ _ _ (fun hh => hrt hh.symm)]
      simp [updKpiRecord_slot_self]
    · by_cases h2 : rt' = rt1
      · subst h2
        rw [updKpiRecord_slot_ne _ _ _ _ h1, updKpiRecord_slot_self]
        simp [updKpiRecord_slot_self]
      · rw [updKpiRecord_slot_ne _ _ _ _ h1, updKpiRecord_slot_ne _ _ _ _ h2]
        simp [updKpiRecord_slot_ne _ _ _ _ h2, updKpiRecord_slot_ne _ _ _ _ h1]

theorem dictEquiv_refl (d : KpiDict) : dictEquiv d d := fun _ => rfl

theorem dictEquiv_trans (d1 d2 d3 : KpiDict) (h1 : dictEquiv d1 d2) (h2 : dictEquiv d2 d3) :
    dictEquiv d1 d3 := fun s => (h1 s).trans (h2 s)

theorem processKpiRow_congr (rt : ReportType) (row : KpiRow) (d1 d2 : KpiDict)
    (h : dictEquiv d1 d2) : dictEquiv (processKpiRow rt row d1) (processKpiRow rt row d2) := by
  intro s
  unfold processKpiRow optEquiv
  by_cases hs : s = row.fullname
  · simp only [hs, if_pos rfl, Option.map_some']
    exact congrArg some (updKpiRecord_congr rt row _ _ (h row.fullname))
  · simp only [if_neg hs]
    exact h s

theorem processKpiRows_congr (rt : ReportType) (rows : List KpiRow) (d1 d2 : KpiDict)
    (h : dictEquiv d1 d2) : dictEquiv (processKpiRows rt rows d1) (processKpiRows rt rows d2) := by
  induction rows generalizing d1 d2 with
  | nil => exact h
  | cons r rs ih =>
    unfold processKpiRows
    simp only [List.foldl_cons]
    exact ih _ _ (processKpiRow_congr rt r d1 d2 h)

theorem processKpiRow_comm (rt1 rt2 : ReportType) (row1 row2 : KpiRow) (d : KpiDict)
    (hrt : rt1 ≠ rt2) :
    dictEquiv (processKpiRow rt2 row2 (processKpiRow rt1 row1 d))
      (processKpiRow rt1 row1 (processKpiRow rt2 row2 d)) := by
  intro s
  unfold processKpiRow optEquiv
  by_cases hf : row1.fullname = row2.fullname
  · by_cases hs : s = row2.fullname
    · simp only [hs, hf, if_pos rfl, eq_self_iff_true, if_true, Option.map_some']
      exact congrArg some (updKpiRecord_comm rt1 rt2 row1 row2 (d row2.fullname) hrt hf)
    · have hs1 : s ≠ row1.fullname := fun hh => hs (hh.trans hf)
      simp only [if_neg hs, if_neg hs1]
  · by_cases hs2 : s = row2.fullname
    · have hs1 : s ≠ row1.fullname := fun hh => hf (hh.symm.trans hs2)
      have h21 : row2.fullname ≠ row1.fullname := fun hh => hf hh.symm
      simp only [hs2, if_pos rfl, if_neg hs1, if_neg h21]
    · by_cases hs1 : s = row1.fullname
      · have h12 : row1.fullname ≠ row2.fullname := hf
        simp only [hs1, if_pos rfl, if_neg hs2, if_neg h12]
      · simp only [if_neg hs1, if_neg hs2]

theorem processKpiRow_rows_comm (rt1 rt2 : ReportType) (row : KpiRow) (rows : List KpiRow)
    (d : KpiDict) (hrt : rt1 ≠ rt2) :
    dictEquiv (processKpiRows rt2 rows (processKpiRow rt1 row d))
      (processKpiRow rt1 row (processKpiRows rt2 rows d)) := by
  induction rows generalizing d with
  | nil => exact dictEquiv_refl _
  | cons r rs ih =>
    unfold processKpiRows
    simp only [List.foldl_cons]
    apply dictEquiv_trans _ (processKpiRows rt2 rs (processKpiRow rt1 row (processKpiRow rt2 r d))) _
    · exact processKpiRows_congr rt2 rs _ _ (processKpiRow_comm rt1 rt2 row r d hrt)
    · exact ih (processKpiRow rt2 r d)

theorem processKpiRows_comm (rt1 rt2 : ReportType) (rows1 rows2 : List KpiRow)
    (d : KpiDict) (hrt : rt1 ≠ rt2) :
    dictEquiv (processKpiRows rt2 rows2 (processKpiRows rt1 rows1 d))
      (processKpiRows rt1 rows1 (processKpiRows rt2 rows2 d)) := by
  induction rows1 generalizing d with
  | nil => exact dictEquiv_refl _
  | cons r rs ih =>
    unfold processKpiRows
    simp only [List.foldl_cons]
    apply dictEquiv_trans _ (processKpiRows rt1 rs (processKpiRows rt2 rows2 (processKpiRow rt1 r d))) _
    · exact ih (processKpiRow rt1 r d)
    · exact processKpiRows_congr rt1 rs _ _ (processKpiRow_rows_comm rt1 rt2 r rows2 d hrt)

theorem processKpiResult_comm (rt1 rt2 : ReportType) (res1 res2 : Option KpiResponse)
    (d : KpiDict) (hrt : rt1 ≠ rt2) :
    dictEquiv (processKpiResult rt2 res2 (processKpiResult rt1 res1 d))
      (processKpiResult rt1 res1 (processKpiResult rt2 res2 d)) := by
  rcases res1 with _ | r1
  · exact dictEquiv_refl _
  rcases res2 with _ | r2
  · exact dictEquiv_refl _
  unfold processKpiResult
  by_cases e1 : r1.data.isEmpty <;> by_cases e2 : r2.data.isEmpty <;> simp only [e1, e2, if_pos, if_neg, if_true, if_false]
  · exact dictEquiv_refl _
  · exact dictEquiv_refl _
  · exact dictEquiv_refl _
  · exact processKpiRows_comm rt1 rt2 r1.data r2.data d hrt

theorem dictSlot_processKpiRow_other (rt rt' : ReportType) (row : KpiRow) (d : KpiDict)
    (s : String) (h : rt' ≠ rt) :
    dictSlot (processKpiRow rt row d) s rt' = dictSlot d s rt' := by
  unfold dictSlot processKpiRow
  by_cases hs : s = row.fullname
  · simp only [hs, eq_self_iff_true, if_true, Option.some_bind]
    rw [updKpiRecord_slot_ne _ _ _ _ h]
  · simp only [if_neg hs]

theorem dictSlot_processKpiRow_other_subject (rt rt' : ReportType) (row : KpiRow)
    (d : KpiDict) (s : String) (hs : s ≠ row.fullname) :
    dictSlot (processKpiRow rt row d) s rt' = dictSlot d s rt' := by
  unfold dictSlot processKpiRow
  simp only [if_neg hs]

theorem dictSlot_processKpiRow_self (rt : ReportType) (row : KpiRow) (d : KpiDict) :
    dictSlot (processKpiRow rt row d) row.fullname rt = convMetric rt row := by
  unfold dictSlot processKpiRow
  simp only [eq_self_iff_true, if_true, Option.some_bind]
  exact updKpiRecord_slot_self rt row _

/-- Claim C3, counterexample: merging an flr result and a csi result for
the same subject in the two possible orders yields different aggregated
records: the cross-cutting contacts_count field takes the value of the
last processed result, so the two orders give 20 and 10 respectively. -/
theorem contacts_order_dependent :
    dictContacts (aggregateKpiResults [.flr, .csi]
      [some ⟨[kpiRowContactsTen]⟩, some ⟨[kpiRowContactsTwenty]⟩]) "A" = some 20 ∧
    dictContacts (aggregateKpiResults [.csi, .flr]
      [some ⟨[kpiRowContactsTwenty]⟩, some ⟨[kpiRowContactsTen]⟩]) "A" = some 10 ∧
    aggregateKpiResults [.flr, .csi]
        [some ⟨[kpiRowContactsTen]⟩, some ⟨[kpiRowContactsTwenty]⟩] "A"
      ≠ aggregateKpiResults [.csi, .flr]
        [some ⟨[kpiRowContactsTwenty]⟩, some ⟨[kpiRowContactsTen]⟩] "A" := by
  refine ⟨by decide, by decide, by decide⟩

/-- Claim C3, amended: merging the results of two distinct report types
in either order yields the same aggregated record for every subject up to
the contacts_count field (which is last-processed wins). -/
theorem aggregate_two_types_comm (rt1 rt2 : ReportType) (res1 res2 : Option KpiResponse)
    (h : rt1 ≠ rt2) :
    dictEquiv (aggregateKpiResults [rt1, rt2] [res1, res2])
      (aggregateKpiResults [rt2, rt1] [res2, res1]) := by
  unfold aggregateKpiResults
  simp only [List.zip, List.zipWith, List.foldl]
  exact processKpiResult_comm rt1 rt2 res1 res2 emptyKpiDict h

theorem aggregate_two_types_comm_witness :
    dictEquiv (aggregateKpiResults [.flr, .csi] [none, none])
      (aggregateKpiResults [.csi, .flr] [none, none]) :=
  aggregate_two_types_comm .flr .csi none none (by decide)

/-- Claim C4, counterexample: after a first flr result populates the flr
slot of subject A with 1.0, a second result of the same report type flr
overwrites that slot with 2.0 — the later result of the same type does
overwrite the populated slot. -/
theorem kpi_same_type_overwrites :
    dictSlot (aggregateKpiResults [.flr] [some ⟨[kpiRowFlrOne]⟩]) "A" .flr
      = some (.pfloat 1) ∧
    dictSlot (aggregateKpiResults [.flr, .flr]
      [some ⟨[kpiRowFlrOne]⟩, some ⟨[kpiRowFlrTwo]⟩]) "A" .flr = some (.pfloat 2) := by
  constructor <;> decide

/-- Claim C4, amended: processing one row of report type rt assigns only
the rt slot of its subject (set to the converted value of the row,
overwriting any previous content, including content written by an earlier
result of the same type), and leaves every other metric slot of every
subject unchanged — a sparse union over subject times metric with
last-write-wins inside one slot. -/
theorem kpi_merge_sparse_overwrite (d : KpiDict) (rt rt' : ReportType) (row : KpiRow)
    (s : String) (h : rt' ≠ rt) :
    dictSlot (processKpiRow rt row d) s rt' = dictSlot d s rt' ∧
    (s ≠ row.fullname → dictSlot (processKpiRow rt row d) s rt = dictSlot d s rt) ∧
    dictSlot (processKpiRow rt row d) row.fullname rt = convMetric rt row :=
  ⟨dictSlot_processKpiRow_other rt rt' row d s h,
    fun hs => dictSlot_processKpiRow_other_subject rt rt row d s hs,
    dictSlot_processKpiRow_self rt row d⟩

theorem kpi_merge_sparse_overwrite_witness :
    ReportType.csi ≠ ReportType.flr ∧
    dictSlot (processKpiRow .flr kpiRowFlrOne emptyKpiDict) "A" .csi
      = dictSlot emptyKpiDict "A" .csi ∧
    ("B" : String) ≠ kpiRowFlrOne.fullname ∧
    dictSlot (processKpiRow .flr kpiRowFlrOne emptyKpiDict) "B" .flr
      = dictSlot emptyKpiDict "B" .flr :=
  ⟨by decide,
    (kpi_merge_sparse_overwrite emptyKpiDict .flr .csi kpiRowFlrOne "A" (by decide)).1,
    by decide,
    (kpi_merge_sparse_overwrite emptyKpiDict .flr .csi kpiRowFlrOne "B" (by decide)).2.1
      (by decide)⟩

/-- Claim C9, counterexample: an aht value is stored into the populated
aht slot without float conversion — the stored value is the raw integer
5, not a floating-point value, although aht is not a raw count. -/
theorem aht_not_float :
    dictSlot (aggregateKpiResults [.aht] [some ⟨[kpiRowAhtFive]⟩]) "A" .aht
      = some (.pint 5) ∧
    (PyVal.pint 5).isFloat = false := by
  constructor <;> decide

/-- Claim C9, amended: for the report types flr, csi, pok and delay the
stored slot value is the float conversion of the payload value (hence a
floating-point value), while the aht slot stores the payload value with
no conversion at all. -/
theorem kpi_float_conversion (d : KpiDict) (rt : ReportType) (row : KpiRow) (v : PyVal)
    (hrt : isFloatConverted rt = true) (hv : row.metric rt = some v) :
    dictSlot (processKpiRow rt row d) row.fullname rt = some (pyFloat v) ∧
    (pyFloat v).isFloat = true ∧
    dictSlot (processKpiRow .aht row d) row.fullname .aht = row.metric .aht := by
  refine ⟨?_, ?_, ?_⟩
  · rw [dictSlot_processKpiRow_self]
    simp [convMetric, hv, hrt]
  · cases v <;> rfl
  · rw [dictSlot_processKpiRow_self]
    unfold convMetric
    cases hm : row.metric .aht <;> simp [hm, isFloatConverted]

theorem kpi_float_conversion_witness :
    isFloatConverted .flr = true ∧ kpiRowFlrOne.metric .flr = some (.pint 1) ∧
    dictSlot (processKpiRow .flr kpiRowFlrOne emptyKpiDict) kpiRowFlrOne.fullname .flr
      = some (pyFloat (.pint 1)) :=
  ⟨by decide, by decide,
    (kpi_float_conversion emptyKpiDict .flr kpiRowFlrOne (.pint 1) (by decide) (by decide)).1⟩

theorem fetchParallel_eq_map (tasks : List τ) (exec : τ → Except ε ρ) :
    fetchParallel tasks exec = tasks.map (fun t => (t, (exec t).toOption)) := by
  unfold fetchParallel processGathered gatherResults
  induction tasks with
  | nil => rfl
  | cons t ts ih =>
    simp only [List.map_cons, List.zip_cons_cons]
    rw [ih]
    cases h : exec t <;> simp [Except.toOption, h]

/-- Claim C2: the bounded fetcher returns one pair per task, positionally
aligned with the input order; at position i the pair holds task i together
with its own outcome — its result on success, None on a raised failure —
so one task depends only on its own executor outcome and a failure never
aborts sibling tasks or the whole call. -/
theorem fetchParallel_positional (tasks : List τ) (exec : τ → Except ε ρ) :
    (fetchParallel tasks exec).length = tasks.length ∧
    ∀ i : Nat, (fetchParallel tasks exec)[i]? =
      (tasks[i]?).map (fun t => (t, (exec t).toOption)) := by
  rw [fetchParallel_eq_map]
  refine ⟨List.length_map _ _, fun i => ?_⟩
  simp [List.getElem?_map]

theorem fetcher_slot_invariant (limit : Nat) (tasks : List Nat) (s : FetcherState)
    (h : FetcherReachable limit tasks s) : s.counter + s.holding.length = limit := by
  induction h with
  | refl => simp [initFetcherState]
  | tail hab hbc ih =>
    cases hbc with
    | acquire t hw hc =>
      simp only [List.length_cons]
      omega
    | release t hh =>
      have hpos := List.length_pos.mpr (List.ne_nil_of_mem hh)
      have hlen := List.length_erase_of_mem hh
      simp only [hlen]
      omega

/-- Claim C7: in every instant reachable during a bounded-fetcher run
with concurrency ceiling K, at most K tasks hold an admission slot
(execute their fetch) simultaneously. -/
theorem fetcher_holding_bounded (limit : Nat) (tasks : List Nat) (s : FetcherState)
    (h : FetcherReachable limit tasks s) : s.holding.length ≤ limit := by
  have := fetcher_slot_invariant limit tasks s h
  omega

theorem fetcher_holding_bounded_witness :
    FetcherReachable 2 [0, 1] ⟨[1], [0], [], 1⟩ ∧ ([0] : List Nat).length ≤ 2 :=
  have hreach : FetcherReachable 2 [0, 1] ⟨[1], [0], [], 1⟩ :=
    Relation.ReflTransGen.single
      (FetcherStep.acquire (initFetcherState 2 [0, 1]) 0 (by simp [initFetcherState])
        (by simp [initFetcherState]))
  ⟨hreach, fetcher_holding_bounded 2 [0, 1] _ hreach⟩

theorem fixMonth_pos (y m : Int) (h : 0 < m) : fixMonth y m = (y, m) := by
  rw [fixMonth, if_neg (by omega)]

theorem fixMonth_closed (y m : Int) (hlo : -11 ≤ m) :
    fixMonth y m = if 0 < m then (y, m) else (y - 1, m + 12) := by
  by_cases h : 0 < m
  · rw [fixMonth, if_neg (by omega), if_pos h]
  · rw [fixMonth, if_pos (by omega), fixMonth, if_neg (by omega), if_neg h]

theorem gen_eq_monthShift (y m : Int) (h1 : 1 ≤ m) (h2 : m ≤ 12) :
    generate_last_6_months_periods y m =
      (List.range 6).map (fun i => formatPeriod (monthShift y m i).1 (monthShift y m i).2) := by
  unfold generate_last_6_months_periods
  apply List.map_congr_left
  intro i hi
  simp only [List.mem_range] at hi
  have hfix : fixMonth y (m - (i : Int)) = monthShift y m i := by
    rw [fixMonth_closed _ _ (by omega)]
    unfold monthShift
    by_cases h : (i : Int) < m
    · rw [if_pos (by omega), if_pos h]
    · rw [if_neg (by omega), if_neg h]
  rw [hfix]

/-- Claim C8: for every current year and month the period generator
returns exactly six period strings, the i-th being the first of the month
i months before the current month formatted as 01.mm.yyyy (hence in
reverse chronological order starting from the current month); in
particular with current date 15.03.2025 (year 2025, month 3) it returns
exactly the six first-of-month strings from 01.03.2025 back to
01.10.2024. -/
theorem periods_last_6_months (year month : Int) (h1 : 1 ≤ month) (h2 : month ≤ 12) :
    (generate_last_6_months_periods year month).length = 6 ∧
    generate_last_6_months_periods year month =
      (List.range 6).map (fun i => formatPeriod (monthShift year month i).1 (monthShift year month i).2) ∧
    generate_last_6_months_periods 2025 3 =
      ["01.03.2025", "01.02.2025", "01.01.2025", "01.12.2024", "01.11.2024", "01.10.2024"] := by
  refine ⟨?_, gen_eq_monthShift year month h1 h2, ?_⟩
  · unfold generate_last_6_months_periods
    simp
  · rw [gen_eq_monthShift 2025 3 (by norm_num) (by norm_num)]
    decide

theorem periods_last_6_months_witness :
    generate_last_6_months_periods 2025 3 =
      ["01.03.2025", "01.02.2025", "01.01.2025", "01.12.2024", "01.11.2024", "01.10.2024"] :=
  (periods_last_6_months 2025 3 (by norm_num) (by norm_num)).2.2

/-- Claim C1, counterexample: a failure raised during the insert step of
the KPI replace-writer is not caught there — it propagates to the caller
as an error, so the triggering failure is re-raised past this boundary
rather than swallowed with zero rows reported. -/
theorem kpi_writer_reraises :
    bulkInsertKpi ⟨[emptyKpiRecord "X"], [emptyKpiRecord "X"]⟩ [emptyKpiRecord "A"]
      (some .atInsert) = .error .atInsert := by
  decide

/-- Claim C1, amended: for the generic batch writer
bulk_insert_with_cleanup, any failure raised during the delete, insert or
commit step is caught: the transaction is rolled back so the committed
table state is exactly its prior state, and zero rows affected is
reported (the function returns normally instead of re-raising). The KPI
replace-writer has no such handler and propagates the failure. -/
theorem bulkInsertWithCleanup_failure (st : DBSession α) (data : List α) (hasDelete : Bool)
    (fp : Option FailPoint) (table : String)
    (h : raisesDuring (!data.isEmpty) hasDelete fp = true) :
    (bulkInsertWithCleanup st data hasDelete fp table).1.committed = st.committed ∧
    (bulkInsertWithCleanup st data hasDelete fp table).2.1 = 0 := by
  have hne : data.isEmpty = false := by
    cases hd : data.isEmpty
    · rfl
    · rw [hd] at h
      simp [raisesDuring] at h
  rcases fp with _ | p
  · simp [raisesDuring] at h
  · cases p
    case atDelete =>
      have hdel : hasDelete = true := by
        cases hdel : hasDelete
        · rw [hdel] at h
          simp [raisesDuring] at h
        · rfl
      unfold bulkInsertWithCleanup
      simp [hne, hdel, DBSession.rollback]
    case atInsert =>
      unfold bulkInsertWithCleanup
      cases hasDelete <;>
        simp [hne, DBSession.rollback, DBSession.clearAll]
    case atCommit =>
      unfold bulkInsertWithCleanup
      cases hasDelete <;>
        simp [hne, DBSession.rollback, DBSession.clearAll, DBSession.addAll]

theorem bulkInsertWithCleanup_failure_witness :
    raisesDuring (!([3] : List Nat).isEmpty) true (some .atInsert) = true ∧
    (bulkInsertWithCleanup (⟨[1, 2], [1, 2]⟩ : DBSession Nat) [3] true (some .atInsert) "T").1.committed
      = [1, 2] ∧
    (bulkInsertWithCleanup (⟨[1, 2], [1, 2]⟩ : DBSession Nat) [3] true (some .atInsert) "T").2.1 = 0 :=
  ⟨by decide,
    (bulkInsertWithCleanup_failure ⟨[1, 2], [1, 2]⟩ [3] true (some .atInsert) "T" (by decide)).1,
    (bulkInsertWithCleanup_failure ⟨[1, 2], [1, 2]⟩ [3] true (some .atInsert) "T" (by decide)).2⟩

/-- Claim C5, counterexample: the premium replace-writer has no
empty-input guard — called with an empty row collection it still performs
the clear and the commit, leaving the destination table empty (the prior
two committed rows are wiped). -/
theorem premium_writer_empty_clears :
    (bulkInsertPremium (⟨[1, 2], [1, 2]⟩ : DBSession Nat) []).2
      = [DBOp.opClear "SpecPremium", DBOp.opInsert 0, DBOp.opCommit] ∧
    (bulkInsertPremium (⟨[1, 2], [1, 2]⟩ : DBSession Nat) []).1.committed = [] := by
  constructor <;> rfl

/-- Claim C5, amended: the generic batch writer bulk_insert_with_cleanup
called with an empty row collection performs no database operation at all
and returns zero rows affected; the premium-specific writer lacks this
guard, but its multi-period caller skips the write entirely when the
accumulated row collection is empty. -/
theorem empty_collection_no_op (st : DBSession α) (hasDelete : Bool)
    (fp : Option FailPoint) (table : String)
    (unites : List String) (api : String → String → Except String (PremiumResult β))
    (periods : List String) (st2 : DBSession (SpecPremiumRow β))
    (hc : collectPremiumRows unites api periods = .ok []) :
    bulkInsertWithCleanup st [] hasDelete fp table = (st, 0, []) ∧
    fillSpecialistsPremiumMultiplePeriods unites api periods st2 = .ok (st2, []) := by
  constructor
  · unfold bulkInsertWithCleanup
    simp
  · unfold fillSpecialistsPremiumMultiplePeriods
    rw [hc]
    rfl

theorem empty_collection_no_op_witness :
    collectPremiumRows ["U"] (fun _ _ => (.error "down" : Except String (PremiumResult Unit)))
      ["01.01.2025"] = .ok [] ∧
    bulkInsertWithCleanup (⟨[1], [1]⟩ : DBSession Nat) [] true none "T" = (⟨[1], [1]⟩, 0, []) :=
  ⟨by rfl,
    (empty_collection_no_op ⟨[1], [1]⟩ true none "T" ["U"]
      (fun _ _ => (.error "down" : Except String (PremiumResult Unit))) ["01.01.2025"]
      ⟨[], []⟩ (by rfl)).1⟩

/-- Claim C6: the multi-period specialists-premium backfill accumulates
the converted rows of every period into one collection and then performs
exactly one clear of the SpecPremium table followed by exactly one insert
of all accumulated rows and one commit — never one replace per period. -/
theorem multi_period_single_replace (unites : List String)
    (api : String → String → Except String (PremiumResult α)) (periods : List String)
    (st : DBSession (SpecPremiumRow α)) (rows : List (SpecPremiumRow α))
    (hc : collectPremiumRows unites api periods = .ok rows) (hne : rows ≠ []) :
    fillSpecialistsPremiumMultiplePeriods unites api periods st =
      .ok ((st.clearAll.addAll rows).commit,
        [DBOp.opClear "SpecPremium", DBOp.opInsert rows.length, DBOp.opCommit]) := by
  unfold fillSpecialistsPremiumMultiplePeriods
  rw [hc]
  cases rows with
  | nil => exact absurd rfl hne
  | cons r rs => rfl

theorem multi_period_single_replace_witness :
    backfillRows.length = 8 ∧
    fillSpecialistsPremiumMultiplePeriods ["U"] backfillApi ["01.01.2025", "01.02.2025"] ⟨[], []⟩
      = .ok (⟨backfillRows, backfillRows⟩,
          [DBOp.opClear "SpecPremium", DBOp.opInsert 8, DBOp.opCommit]) := by
  refine ⟨by decide, ?_⟩
  have h := multi_period_single_replace ["U"] backfillApi ["01.01.2025", "01.02.2025"]
    ⟨[], []⟩ backfillRows rfl (by decide)
  exact h

/-- Claim C10: evaluation of the two specialist premium converters at a
payload row whose target_normative_second is 1 and whose
target_normative_rate_second is 2. The single-period flow stores 1 into
the target_normative_rate_second column (it reads
row.target_normative_second, src/app/tasks/premium.py line 136) while the
multi-period backfill stores 2 — the constructed storage rows differ. -/
theorem premium_rate_second_divergence :
    premiumRowRateSplit.target_normative_second = 1 ∧
    premiumRowRateSplit.target_normative_rate_second = 2 ∧
    (specPremiumOfRowSingle premiumRowRateSplit).map
      (fun r => r.target_normative_rate_second) = .ok 1 ∧
    (specPremiumOfRowMulti premiumRowRateSplit).map
      (fun r => r.target_normative_rate_second) = .ok 2 ∧
    specPremiumOfRowSingle premiumRowRateSplit ≠ specPremiumOfRowMulti premiumRowRateSplit := by
  refine ⟨rfl, rfl, by decide, by decide, by decide⟩
